import Mathlib

/-!
Verification development for the job-lifecycle orchestrator of the runner
service.  The definitions below are a shallow embedding of the Python
sources:

* `runner/state_machine.py`  — `ALLOWED_TRANSITIONS`, `validate_transition`,
  `InvalidTransitionError` (encoded in `PyExc.invalidTransition`);
* `runner/models.py`         — `JobState`, `EventType`, `JobEvent`, `Job`,
  `AgentResult`;
* `runner/services/job_manager.py` — `JobManager` with `create_job`,
  `get_job`, `get_job_by_plan_id`, `transition`, `add_event`, `get_events`,
  `save_artifact`, `save_run_metadata`;
* `runner/services/cursor_invoker.py` — the buffered and streaming
  invocation paths;
* `runner/routers/ask.py`, `plan.py`, `execute.py` — the phase handlers'
  error handling around the invoker.

Python machine state (the in-memory job dict, the per-job asyncio queues,
and the file system) is modelled as an explicit `JobManager` record that is
threaded through every operation; Python exceptions are modelled by the
`Except PyExc` monadic result; `datetime.now` and `uuid4` draws are passed
in as explicit parameters; `json.loads` is modelled by passing the parse
outcome of a string alongside the string (an oracle parameter), since the
claims only distinguish "parses / does not parse" and the parsed value.
-/

namespace Runner

/-- The eleven job lifecycle states of `JobState` in `runner/models.py`. -/
inductive JobState
  | DRAFT
  | ASK_RUNNING
  | ASK_DONE
  | NEEDS_INPUT
  | PLAN_RUNNING
  | PLAN_READY
  | PLAN_NEEDS_INPUT
  | APPROVED
  | EXECUTING
  | COMPLETE
  | FAILED
deriving DecidableEq, Repr

/-- The string value of each `JobState` enum member (`StrEnum` values). -/
def JobState.value : JobState → String
  | .DRAFT => "draft"
  | .ASK_RUNNING => "ask_running"
  | .ASK_DONE => "ask_done"
  | .NEEDS_INPUT => "needs_input"
  | .PLAN_RUNNING => "plan_running"
  | .PLAN_READY => "plan_ready"
  | .PLAN_NEEDS_INPUT => "plan_needs_input"
  | .APPROVED => "approved"
  | .EXECUTING => "executing"
  | .COMPLETE => "complete"
  | .FAILED => "failed"

/-- The four event categories of `EventType` in `runner/models.py`. -/
inductive EventType
  | STEP
  | LOG
  | DONE
  | ERROR
deriving DecidableEq, Repr

/-- The string value of each `EventType` enum member. -/
def EventType.value : EventType → String
  | .STEP => "step"
  | .LOG => "log"
  | .DONE => "done"
  | .ERROR => "error"

/-- Python exceptions raised by the embedded code.  `invalidTransition`
carries the `current` and `target` attributes of `InvalidTransitionError`. -/
inductive PyExc
  | keyError (msg : String)
  | invalidTransition (current target : JobState)
  | timeoutError (msg : String)
  | fileNotFoundError (msg : String)
  | attributeError
  | validationError
  | httpException (status : Nat) (detail : String)
  | streamError (msg : String)
deriving DecidableEq, Repr

/-- `str(exc)` for each modelled exception; for `InvalidTransitionError`
this is the message built in its `__init__`. -/
def PyExc.message : PyExc → String
  | .keyError m => m
  | .invalidTransition c t =>
      "Transition from '" ++ c.value ++ "' to '" ++ t.value ++ "' is not allowed"
  | .timeoutError m => m
  | .fileNotFoundError m => m
  | .attributeError => "AttributeError"
  | .validationError => "ValidationError"
  | .httpException _ d => d
  | .streamError m => m

/-- `ALLOWED_TRANSITIONS` from `runner/state_machine.py`: the explicit map of
every legal transition, with the frozensets rendered as lists. -/
def ALLOWED_TRANSITIONS : JobState → List JobState
  | .DRAFT => [.ASK_RUNNING, .PLAN_RUNNING]
  | .ASK_RUNNING => [.ASK_DONE, .NEEDS_INPUT, .FAILED]
  | .NEEDS_INPUT => [.ASK_RUNNING]
  | .ASK_DONE => [.PLAN_RUNNING]
  | .PLAN_RUNNING => [.PLAN_READY, .PLAN_NEEDS_INPUT, .FAILED]
  | .PLAN_NEEDS_INPUT => [.PLAN_RUNNING]
  | .PLAN_READY => [.APPROVED]
  | .APPROVED => [.EXECUTING]
  | .EXECUTING => [.COMPLETE, .FAILED]
  | .COMPLETE => []
  | .FAILED => []

/-- `validate_transition` from `runner/state_machine.py`: returns `True` when
the pair is an edge of the table, raises `InvalidTransitionError(current,
target)` otherwise. -/
def validate_transition (current target : JobState) : Except PyExc Bool :=
  if target ∈ ALLOWED_TRANSITIONS current then .ok true
  else .error (.invalidTransition current target)

/-- `JobEvent` from `runner/models.py` (timestamps as abstract `Nat`). -/
structure JobEvent where
  event_type : EventType
  data : String
  timestamp : Nat
deriving DecidableEq, Repr

/-- `Job` from `runner/models.py` (paths as strings, timestamps as `Nat`). -/
structure Job where
  job_id : String
  project_path : String
  state : JobState
  session_id : String := ""
  plan_id : String := ""
  plan_markdown : String := ""
  artifacts_dir : String
  events : List JobEvent := []
  created_at : Nat
  updated_at : Nat
deriving DecidableEq, Repr

/-- First-match lookup in an insertion-ordered association list; the model of
reading a Python dict (whose keys are unique, so first match is the match). -/
def lookupA {α : Type} (l : List (String × α)) (k : String) : Option α :=
  (l.find? (fun p => p.1 == k)).map Prod.snd

/-- `d[k] = v` on an insertion-ordered association list: updates the existing
binding in place, otherwise appends a new one (Python dicts preserve
insertion order). -/
def setA {α : Type} (l : List (String × α)) (k : String) (v : α) : List (String × α) :=
  if (l.find? (fun p => p.1 == k)).isSome then
    l.map (fun p => if p.1 == k then (k, v) else p)
  else l ++ [(k, v)]

/-- The state owned by a `JobManager` instance (`runner/services/job_manager.py`)
together with the file system it writes to: the `_jobs` dict, the `_queues`
dict (each asyncio queue as a FIFO list, front = next item a consumer gets),
the set of directories created, and the files written with their content. -/
structure JobManager where
  artifacts_root : String
  jobs : List (String × Job) := []
  queues : List (String × List JobEvent) := []
  fs_dirs : List String := []
  fs_files : List (String × String) := []
deriving Repr

/-- `JobManager.create_job`: a fresh id is drawn from `uuid4().hex[:12]`
(passed in as `gen_id`), the artifacts directory is created on disk
(`mkdir(parents=True, exist_ok=True)`), and a DRAFT job plus an empty event
queue are registered. -/
def JobManager.create_job (m : JobManager) (project_path : String) (gen_id : String)
    (now : Nat) : JobManager × Job :=
  let artifacts_dir := m.artifacts_root ++ "/" ++ gen_id
  let fs' := if artifacts_dir ∈ m.fs_dirs then m.fs_dirs else m.fs_dirs ++ [artifacts_dir]
  let job : Job :=
    { job_id := gen_id
      project_path := project_path
      state := .DRAFT
      artifacts_dir := artifacts_dir
      created_at := now
      updated_at := now }
  ({ m with
      fs_dirs := fs'
      jobs := setA m.jobs gen_id job
      queues := setA m.queues gen_id [] }, job)

/-- `JobManager.get_job`: raises `KeyError` when the id is absent, returns the
registered record otherwise. -/
def JobManager.get_job (m : JobManager) (job_id : String) : Except PyExc Job :=
  match lookupA m.jobs job_id with
  | none => .error (.keyError ("Job '" ++ job_id ++ "' not found"))
  | some job => .ok job

/-- `JobManager.get_job_by_plan_id`: linear scan in registration order over
`self._jobs.values()`; returns the first job whose `plan_id` matches, raises
`KeyError` when none does. -/
def JobManager.get_job_by_plan_id (m : JobManager) (plan_id : String) : Except PyExc Job :=
  match m.jobs.find? (fun p => p.2.plan_id == plan_id) with
  | some p => .ok p.2
  | none => .error (.keyError ("No job found with plan_id '" ++ plan_id ++ "'"))

/-- `JobManager.transition`: looks the job up, validates against the state
machine (raising before any mutation), then sets `state` and refreshes
`updated_at` with `datetime.now` (passed in as `now`).  On an exception the
manager state is returned unchanged, since the raise precedes the mutation. -/
def JobManager.transition (m : JobManager) (job_id : String) (target_state : JobState)
    (now : Nat) : JobManager × Except PyExc Job :=
  match m.get_job job_id with
  | .error e => (m, .error e)
  | .ok job =>
    match validate_transition job.state target_state with
    | .error e => (m, .error e)
    | .ok _ =>
      let job' := { job with state := target_state, updated_at := now }
      ({ m with jobs := setA m.jobs job_id job' }, .ok job')

/-- `JobManager.add_event`: appends the new event to `job.events` (an in-place
mutation of the registered record) and then puts it on the job's queue.  The
append happens before the queue access, so a missing queue raises `KeyError`
with the events list already extended. -/
def JobManager.add_event (m : JobManager) (job_id : String) (event_type : EventType)
    (data : String) (now : Nat) : JobManager × Except PyExc JobEvent :=
  match m.get_job job_id with
  | .error e => (m, .error e)
  | .ok job =>
    let event : JobEvent := { event_type := event_type, data := data, timestamp := now }
    let job' := { job with events := job.events ++ [event] }
    let m1 := { m with jobs := setA m.jobs job_id job' }
    match lookupA m.queues job_id with
    | none => (m1, .error (.keyError ("'" ++ job_id ++ "'")))
    | some q => ({ m1 with queues := setA m1.queues job_id (q ++ [event]) }, .ok event)

/-- `JobManager.get_events`: returns the queue a consumer drains, raising
`KeyError` when no queue exists for the id. -/
def JobManager.get_events (m : JobManager) (job_id : String) : Except PyExc (List JobEvent) :=
  match lookupA m.queues job_id with
  | none => .error (.keyError ("No event queue for job '" ++ job_id ++ "'"))
  | some q => .ok q

/-- `JobManager.save_artifact`: whole-file write of `content` under the job's
artifacts directory, overwriting any existing file of that name. -/
def JobManager.save_artifact (m : JobManager) (job_id filename content : String) :
    JobManager × Except PyExc String :=
  match m.get_job job_id with
  | .error e => (m, .error e)
  | .ok job =>
    let path := job.artifacts_dir ++ "/" ++ filename
    ({ m with fs_files := setA m.fs_files path content }, .ok path)

/-- Model of `json.dumps(job.model_dump(mode="json"), indent=2, default=str)`:
a concrete rendering of the full job record that carries the state, both
timestamps, and the complete event history. -/
def dumpEvent (e : JobEvent) : String :=
  "\x7b event_type: " ++ e.event_type.value ++ ", data: " ++ e.data ++
    ", timestamp: " ++ toString e.timestamp ++ " \x7d"

/-- Rendering of a job's event list for `dumpJob`. -/
def dumpEvents : List JobEvent → String
  | [] => ""
  | [e] => dumpEvent e
  | e :: rest => dumpEvent e ++ ", " ++ dumpEvents rest

/-- The serialized `run.json` payload for a job record. -/
def dumpJob (job : Job) : String :=
  "\x7b job_id: " ++ job.job_id ++ ", project_path: " ++ job.project_path ++
    ", state: " ++ job.state.value ++ ", session_id: " ++ job.session_id ++
    ", plan_id: " ++ job.plan_id ++ ", artifacts_dir: " ++ job.artifacts_dir ++
    ", events: [" ++ dumpEvents job.events ++ "], created_at: " ++
    toString job.created_at ++ ", updated_at: " ++ toString job.updated_at ++ " \x7d"

/-- `JobManager.save_run_metadata`: serializes the full job record and writes
it through `save_artifact` as `run.json`. -/
def JobManager.save_run_metadata (m : JobManager) (job_id : String) :
    JobManager × Except PyExc String :=
  match m.get_job job_id with
  | .error e => (m, .error e)
  | .ok job => m.save_artifact job_id "run.json" (dumpJob job)

/-- JSON values as produced by `json.loads` (numbers restricted to integers;
no claim involves fractional numbers). -/
inductive Json
  | null
  | bool (b : Bool)
  | num (n : Int)
  | str (s : String)
  | arr (xs : List Json)
  | obj (fields : List (String × Json))
deriving Repr, BEq

/-- Python truthiness of a decoded JSON value (`if value:`). -/
def Json.truthy : Json → Bool
  | .null => false
  | .bool b => b
  | .num n => n != 0
  | .str s => s != ""
  | .arr xs => !xs.isEmpty
  | .obj fs => !fs.isEmpty

mutual

/-- Model of `json.dumps` of a decoded value (concrete rendering). -/
def Json.dumps : Json → String
  | .null => "null"
  | .bool b => if b then "true" else "false"
  | .num n => toString n
  | .str s => "\x22" ++ s ++ "\x22"
  | .arr xs => "[" ++ dumpsArr xs ++ "]"
  | .obj fs => "\x7b" ++ dumpsObj fs ++ "\x7d"

/-- Comma-joined rendering of a JSON array's elements. -/
def dumpsArr : List Json → String
  | [] => ""
  | [x] => Json.dumps x
  | x :: xs => Json.dumps x ++ ", " ++ dumpsArr xs

/-- Comma-joined rendering of a JSON object's fields. -/
def dumpsObj : List (String × Json) → String
  | [] => ""
  | [(k, v)] => "\x22" ++ k ++ "\x22: " ++ Json.dumps v
  | (k, v) :: fs => "\x22" ++ k ++ "\x22: " ++ Json.dumps v ++ ", " ++ dumpsObj fs

end

/-- Model of Python `str()` applied to a decoded JSON value: a string renders
as itself, anything else by its structural rendering. -/
def Json.pyStr : Json → String
  | .str s => s
  | c => c.dumps

/-- `fields.get(key, dflt)` on the field list of a decoded JSON object. -/
def fieldGet (fields : List (String × Json)) (key : String) (dflt : Json) : Json :=
  ((fields.find? (fun p => p.1 == key)).map Prod.snd).getD dflt

/-- `value.get(key, dflt)`: only dicts have `.get`; on any other decoded value
Python raises `AttributeError`. -/
def jsonGet (c : Json) (key : String) (dflt : Json) : Except PyExc Json :=
  match c with
  | .obj fields => .ok (fieldGet fields key dflt)
  | _ => .error .attributeError

/-- `AgentResult` from `runner/services/cursor_invoker.py`. -/
structure AgentResult where
  text : String
  session_id : String := ""
  duration_ms : Int := 0
  is_error : Bool := false
deriving DecidableEq, Repr

/-- The tail of `invoke_cursor` (buffered invocation) after the subprocess has
produced `raw` (stripped combined output) and exited: the empty-output guard,
the `json.loads` attempt (its outcome passed in as `parsed`, the oracle for
`json.loads raw`), and the field extraction `data.get("result", raw)` /
`session_id` / `duration_ms` / `is_error`.  A decoded non-dict raises
`AttributeError` at `.get`; a decoded field of the wrong shape fails
pydantic validation when `AgentResult` is constructed. -/
def invoke_cursor_model (raw : String) (parsed : Option Json) : Except PyExc AgentResult :=
  if raw = "" then .ok { text := "(No response from agent)", is_error := true }
  else
    match parsed with
    | none => .ok { text := raw }
    | some (.obj fields) =>
      match fieldGet fields "result" (.str raw), fieldGet fields "session_id" (.str ""),
          fieldGet fields "duration_ms" (.num 0), fieldGet fields "is_error" (.bool false) with
      | .str t, .str sid, .num dur, .bool err =>
        .ok { text := t, session_id := sid, duration_ms := dur, is_error := err }
      | _, _, _, _ => .error .validationError
    | some _ => .error .attributeError

/-- One stdout line as seen after the `json.loads` attempt inside the
streaming loop: either it failed to decode, or it decoded to a chunk. -/
inductive RawLine
  | notJson (s : String)
  | json (c : Json)
deriving Repr

/-- Python `==` between the (possibly non-string) `type` field and a string
literal holds only when the field is that string; `typeTag` extracts the
string to compare. -/
def typeTag : Json → Option String
  | .str s => some s
  | _ => none

/-- The chunk classification of `invoke_cursor_streaming`: the yields produced
for one decoded chunk, dispatching on its `type` discriminator exactly as the
`if`/`elif` chain does.  Yield items are the decoded values the generator
yields (usually strings). -/
def classify_chunk (chunk : Json) : Except PyExc (List Json) :=
  match jsonGet chunk "type" (.str "") with
  | .error e => .error e
  | .ok chunk_type =>
    let tstr : Option String := typeTag chunk_type
    if tstr = some "text_delta" then
      match jsonGet chunk "content" (.str "") with
      | .error e => .error e
      | .ok text => .ok (if text.truthy then [text] else [])
    else if tstr = some "result" then
      match jsonGet chunk "result" (.str "") with
      | .error e => .error e
      | .ok final_text =>
        .ok (if final_text.truthy then [.str ("__result__::" ++ chunk.dumps)] else [])
    else if tstr = some "tool_use" then
      match jsonGet chunk "name" (.str "unknown") with
      | .error e => .error e
      | .ok tool_name => .ok [.str ("[Tool: " ++ tool_name.pyStr ++ "]")]
    else if tstr = some "tool_result" then
      .ok [.str "[Tool completed]"]
    else
      match jsonGet chunk "content" (.str ""), jsonGet chunk "result" (.str "") with
      | .ok c, .ok r =>
        let raw_text : Json := if c.truthy then c else if r.truthy then r else .str chunk.pyStr
        .ok (if raw_text.truthy then [raw_text] else [])
      | .error e, _ => .error e
      | _, .error e => .error e

/-- The yields produced for one surfaced line: a line that fails `json.loads`
is yielded verbatim, a decoded line is classified by chunk type. -/
def classify_line : RawLine → Except PyExc (List Json)
  | .notJson s => .ok [.str s]
  | .json c => classify_chunk c

/-- The streaming loop of `invoke_cursor_streaming` over the thread-safe
queue: items are processed in order until the `None` sentinel, at which point
the loop breaks (anything after the sentinel is never read).  The worker
always terminates the queue with the sentinel. -/
def drain_queue : List (Option RawLine) → Except PyExc (List Json)
  | [] => .ok []
  | none :: _ => .ok []
  | some line :: rest =>
    match classify_line line with
    | .error e => .error e
    | .ok ys =>
      match drain_queue rest with
      | .error e => .error e
      | .ok zs => .ok (ys ++ zs)

/-- `line.rstrip("\n\r")` applied to each surfaced stdout line. -/
def rstripNewlines (s : String) : String :=
  String.mk ((s.data.reverse.dropWhile (fun c => c == '\n' || c == '\r')).reverse)

/-- `_stream_blocking` from `runner/services/cursor_invoker.py`: each stdout
line is stripped of trailing newline characters and pushed onto the queue
when non-empty; after the process exits, the `None` sentinel is pushed and
the exit code is returned to the caller awaiting the worker. -/
def stream_blocking (stdout_lines : List String) (returncode : Int) :
    List (Option String) × Int :=
  ((((stdout_lines.map rstripNewlines).filter (fun s => s != "")).map some) ++ [none],
    returncode)

/-- `invoke_cursor_streaming` end to end: the worker turns the process stdout
into a queue of lines plus the sentinel, the async side decodes each line with
`json.loads` (modelled by the `parse` oracle) and yields the classification,
and after the sentinel the worker's exit status is awaited and returned. -/
def invoke_cursor_streaming (parse : String → RawLine) (stdout_lines : List String)
    (returncode : Int) : Except PyExc (List Json) × Int :=
  let out := stream_blocking stdout_lines returncode
  (drain_queue (out.1.map (Option.map parse)), out.2)

/-- `AskResponse` from `runner/models.py` (the `questions` list is always left
at its default `[]` by the handler, so it is omitted). -/
structure AskResponse where
  job_id : String
  ask_text : String
  session_id : String := ""
deriving DecidableEq, Repr

/-- `PlanResponse` from `runner/models.py` (with `questions` likewise always
defaulted by the handler). -/
structure PlanResponse where
  job_id : String
  plan_id : String
  plan_markdown : String
  session_id : String := ""
deriving DecidableEq, Repr

/-- Outcome of the awaited `invoke_cursor` call inside a phase handler: a
normal result, a raised `TimeoutError`, or a raised `FileNotFoundError`
(`AgentUnavailable`) from `_find_agent_command`. -/
inductive InvokeOutcome
  | ok (r : AgentResult)
  | timeout
  | agentUnavailable (msg : String)
deriving Repr

/-- The `ask` handler of `runner/routers/ask.py`: create the job, adopt the
request's session id when non-empty, transition to ASK_RUNNING, invoke the
agent (outcome passed in), then either record the failure (`TimeoutError` or
`FileNotFoundError`/`OSError` both force FAILED plus an ERROR event before an
`HTTPException` is raised) or store the session id, transition to ASK_DONE,
record a DONE event and save the `ask_response.md` artifact. -/
def ask_handler (m : JobManager) (project_path req_session_id gen_id : String)
    (outcome : InvokeOutcome) (t : Nat) : JobManager × Except PyExc AskResponse :=
  let cr := m.create_job project_path gen_id t
  let m1 := cr.1
  let job := cr.2
  let m1' := if req_session_id != "" then
      { m1 with jobs := setA m1.jobs job.job_id { job with session_id := req_session_id } }
    else m1
  match m1'.transition job.job_id .ASK_RUNNING t with
  | (m2, .error e) => (m2, .error e)
  | (m2, .ok _) =>
    match outcome with
    | .timeout =>
      match m2.transition job.job_id .FAILED t with
      | (m3, .error e) => (m3, .error e)
      | (m3, .ok _) =>
        match m3.add_event job.job_id .ERROR "Cursor agent timed out" t with
        | (m4, .error e) => (m4, .error e)
        | (m4, .ok _) => (m4, .error (.httpException 504 "Cursor agent timed out"))
    | .agentUnavailable msg =>
      match m2.transition job.job_id .FAILED t with
      | (m3, .error e) => (m3, .error e)
      | (m3, .ok _) =>
        match m3.add_event job.job_id .ERROR ("Cursor CLI not found: " ++ msg) t with
        | (m4, .error e) => (m4, .error e)
        | (m4, .ok _) => (m4, .error (.httpException 500 ("Cursor CLI not found: " ++ msg)))
    | .ok r =>
      match m2.get_job job.job_id with
      | .error e => (m2, .error e)
      | .ok cur =>
        let m2' := { m2 with
          jobs := setA m2.jobs job.job_id { cur with session_id := r.session_id } }
        match m2'.transition job.job_id .ASK_DONE t with
        | (m3, .error e) => (m3, .error e)
        | (m3, .ok _) =>
          match m3.add_event job.job_id .DONE "Ask completed" t with
          | (m4, .error e) => (m4, .error e)
          | (m4, .ok _) =>
            match m4.save_artifact job.job_id "ask_response.md" r.text with
            | (m5, .error e) => (m5, .error e)
            | (m5, .ok _) =>
              (m5, .ok { job_id := job.job_id, ask_text := r.text,
                         session_id := r.session_id })

/-- The `create_plan` handler of `runner/routers/plan.py`: create the job,
adopt the request's session id when non-empty, transition to PLAN_RUNNING,
invoke the agent (outcome passed in).  Only `TimeoutError` is caught (FAILED
plus an ERROR event, then `HTTPException` 504); a `FileNotFoundError` from
the invoker propagates out of the handler untouched.  On success the session
id, plan id (a fresh uuid hex, passed in) and plan Markdown are stored, the
job transitions to PLAN_READY, a DONE event is recorded and `plan.md` is
saved. -/
def plan_handler (m : JobManager) (project_path req_session_id gen_id gen_plan_id : String)
    (outcome : InvokeOutcome) (t : Nat) : JobManager × Except PyExc PlanResponse :=
  let cr := m.create_job project_path gen_id t
  let m1 := cr.1
  let job := cr.2
  let m1' := if req_session_id != "" then
      { m1 with jobs := setA m1.jobs job.job_id { job with session_id := req_session_id } }
    else m1
  match m1'.transition job.job_id .PLAN_RUNNING t with
  | (m2, .error e) => (m2, .error e)
  | (m2, .ok _) =>
    match outcome with
    | .timeout =>
      match m2.transition job.job_id .FAILED t with
      | (m3, .error e) => (m3, .error e)
      | (m3, .ok _) =>
        match m3.add_event job.job_id .ERROR "Cursor agent timed out" t with
        | (m4, .error e) => (m4, .error e)
        | (m4, .ok _) => (m4, .error (.httpException 504 "Cursor agent timed out"))
    | .agentUnavailable msg => (m2, .error (.fileNotFoundError msg))
    | .ok r =>
      match m2.get_job job.job_id with
      | .error e => (m2, .error e)
      | .ok cur =>
        let cur' := { cur with
          session_id := r.session_id
          plan_id := gen_plan_id
          plan_markdown := r.text }
        let m2' := { m2 with jobs := setA m2.jobs job.job_id cur' }
        match m2'.transition job.job_id .PLAN_READY t with
        | (m3, .error e) => (m3, .error e)
        | (m3, .ok _) =>
          match m3.add_event job.job_id .DONE "Plan generation completed" t with
          | (m4, .error e) => (m4, .error e)
          | (m4, .ok _) =>
            match m4.save_artifact job.job_id "plan.md" r.text with
            | (m5, .error e) => (m5, .error e)
            | (m5, .ok _) =>
              (m5, .ok { job_id := job.job_id, plan_id := gen_plan_id,
                         plan_markdown := r.text, session_id := r.session_id })

/-- How the drain of the streaming generator in `_run_execution` ends: the
async-for completes, or some exception (carrying `str(exc)`) is raised while
draining. -/
inductive DrainOutcome
  | completed
  | raised (msg : String)
deriving Repr

/-- One iteration of the async-for in `_run_execution`: a chunk bearing the
`__result__::` marker has its JSON payload decoded (decode failure is
swallowed by the inner `except json.JSONDecodeError: pass`; the final text,
when truthy, joins the accumulated output; a decoded non-dict raises at
`.get`, which the inner except does not catch); any other chunk is appended
to the accumulated output and recorded as a LOG event. -/
def process_chunk (parse : String → Option Json) (m : JobManager) (job_id : String)
    (acc : List String) (chunk : String) (t : Nat) :
    (JobManager × List String) × Except PyExc Unit :=
  if chunk.startsWith "__result__::" then
    let raw_json := chunk.drop ("__result__::".length)
    match parse raw_json with
    | none => ((m, acc), .ok ())
    | some result_data =>
      match jsonGet result_data "result" (.str "") with
      | .error e => ((m, acc), .error e)
      | .ok final_text =>
        ((m, if final_text.truthy then acc ++ [final_text.pyStr] else acc), .ok ())
  else
    let acc' := acc ++ [chunk]
    match m.add_event job_id .LOG chunk t with
    | (m', .ok _) => ((m', acc'), .ok ())
    | (m', .error e) => ((m', acc'), .error e)

/-- One fold step of the async-for of `_run_execution`: in the normal state
the next chunk is processed; once an exception has been raised the loop is
over, so the error state absorbs the remaining chunks unchanged (the frozen
manager/accumulator pair is exactly the state at the raise). -/
def process_step (parse : String → Option Json) (job_id : String) (t : Nat)
    (st : (JobManager × List String) × Except PyExc Unit) (c : String) :
    (JobManager × List String) × Except PyExc Unit :=
  match st with
  | ((m, acc), .ok _) => process_chunk parse m job_id acc c t
  | err => err

/-- The whole async-for of `_run_execution` over the chunks the generator
yields before it finishes (or before the drain raises). -/
def process_chunks (parse : String → Option Json) (m : JobManager) (job_id : String)
    (acc : List String) (chunks : List String) (t : Nat) :
    (JobManager × List String) × Except PyExc Unit :=
  chunks.foldl (process_step parse job_id t) ((m, acc), .ok ())

/-- Sequencing of two Python statements under exception flow: when the first
operation returned normally its successor runs on the new manager state;
when it raised, the exception propagates with the state at the raise. -/
def pyBind {A B : Type} (r : JobManager × Except PyExc A)
    (f : JobManager → A → JobManager × Except PyExc B) : JobManager × Except PyExc B :=
  match r with
  | (m, .ok a) => f m a
  | (m, .error e) => (m, .error e)

/-- `pyBind` for the drain loop's state shape, which also carries the
accumulated output list. -/
def pyBind2 (r : (JobManager × List String) × Except PyExc Unit)
    (f : JobManager → List String → JobManager × Except PyExc Unit) :
    JobManager × Except PyExc Unit :=
  match r with
  | ((m, acc), .ok _) => f m acc
  | ((m, _), .error e) => (m, .error e)

/-- The tail of `_run_execution` after a completed drain: the
`logs.txt`/`job_summary.md` artifacts from the joined output, the COMPLETE
transition and the DONE event. -/
def finish_execution (m2 : JobManager) (job_id : String) (acc : List String) (t : Nat) :
    JobManager × Except PyExc Unit :=
  pyBind (m2.save_artifact job_id "logs.txt" (String.join acc)) (fun m3 _ =>
    pyBind (m3.save_artifact job_id "job_summary.md" (String.join acc)) (fun m4 _ =>
      pyBind (m4.transition job_id .COMPLETE t) (fun m5 _ =>
        pyBind (m5.add_event job_id .DONE "Execution completed successfully" t)
          (fun m6 _ => (m6, .ok ())))))

/-- How the `try` block of `_run_execution` continues once the async-for is
over: an exception raised by the drain surfaces here, a clean completion
proceeds to the artifact/transition tail. -/
def after_drain (m2 : JobManager) (job_id : String) (acc : List String)
    (outcome : DrainOutcome) (t : Nat) : JobManager × Except PyExc Unit :=
  match outcome with
  | .raised msg => (m2, .error (.streamError msg))
  | .completed => finish_execution m2 job_id acc t

/-- The `try` block of `_run_execution`: STEP event, drain of the stream,
then the continuation chosen by how the drain ended. -/
def run_execution_body (parse : String → Option Json) (m : JobManager) (job_id : String)
    (chunks : List String) (outcome : DrainOutcome) (t : Nat) :
    JobManager × Except PyExc Unit :=
  pyBind (m.add_event job_id .STEP "Starting Cursor agent in execute mode (streaming)" t)
    (fun m1 _ =>
      pyBind2 (process_chunks parse m1 job_id [] chunks t)
        (fun m2 acc => after_drain m2 job_id acc outcome t))

/-- The `except Exception` block of `_run_execution`: on a body exception the
job transitions to FAILED and an ERROR event carrying `str(exc)` is recorded
(an exception inside the except block itself propagates with the state it
left behind). -/
def handle_body_result (r : JobManager × Except PyExc Unit) (job_id : String) (t : Nat) :
    JobManager :=
  match r with
  | (m1, .ok _) => m1
  | (m1, .error e) =>
    match m1.transition job_id .FAILED t with
    | (ma, .error _) => ma
    | (ma, .ok _) => (ma.add_event job_id .ERROR e.message t).1

/-- `_run_execution` from `runner/routers/execute.py` with its
`try`/`except Exception`/`finally` shape: any exception from the body forces
a FAILED transition plus an ERROR event carrying `str(exc)`, and
`save_run_metadata` runs unconditionally afterward. -/
def run_execution (parse : String → Option Json) (m : JobManager) (job_id : String)
    (chunks : List String) (outcome : DrainOutcome) (t : Nat) : JobManager :=
  ((handle_body_result (run_execution_body parse m job_id chunks outcome t) job_id
    t).save_run_metadata job_id).1

/-- A concrete job record used to instantiate the theorems below. -/
def sampleJob (s : JobState) : Job :=
  { job_id := "j1"
    project_path := "/p"
    state := s
    artifacts_dir := "/a/j1"
    created_at := 0
    updated_at := 0 }

/-- A concrete one-job manager used to instantiate the theorems below. -/
def sampleManager (s : JobState) : JobManager :=
  { artifacts_root := "/a"
    jobs := [("j1", sampleJob s)]
    queues := [("j1", [])]
    fs_dirs := ["/a/j1"] }

/-- A parse oracle standing for `json.loads` never succeeding. -/
def parseNone : String → Option Json := fun _ => none

/-- A `result`-type streaming chunk whose `result` text is empty. -/
def resultChunkEmpty : Json := .obj [("type", .str "result"), ("result", .str "")]

/-- The event record built by one `add_event` call for a (category, payload,
timestamp) triple. -/
def mkEv : EventType × String × Nat → JobEvent
  | (et, d, ts) => { event_type := et, data := d, timestamp := ts }

/-- A whole sequence of `add_event` calls on one job, in order. -/
def add_events (m : JobManager) (job_id : String) :
    List (EventType × String × Nat) → JobManager
  | [] => m
  | (et, d, ts) :: rest => add_events (m.add_event job_id et d ts).1 job_id rest

/-- Updating every binding of key `k` to `v` makes a later lookup of `k`
return `v` exactly when `k` was bound before. -/
theorem lookupA_map_update {α : Type} (l : List (String × α)) (k : String) (v : α) :
    lookupA (l.map (fun p => if p.1 == k then (k, v) else p)) k =
      (lookupA l k).map (fun _ => v) := by
  induction l with
  | nil => rfl
  | cons p rest ih =>
    by_cases hp : p.1 = k
    · simp [lookupA, List.find?, hp]
    · simp only [lookupA, List.map_cons] at ih ⊢
      rw [show (if (p.1 == k) = true then (k, v) else p) = p by simp [hp]]
      rw [List.find?_cons_of_neg _ (by simp [hp]), List.find?_cons_of_neg _ (by simp [hp])]
      exact ih

/-- Updating every binding of key `k` leaves lookups of any other key alone. -/
theorem lookupA_map_update_ne {α : Type} (l : List (String × α)) (k k' : String) (v : α)
    (h : k' ≠ k) :
    lookupA (l.map (fun p => if p.1 == k then (k, v) else p)) k' = lookupA l k' := by
  induction l with
  | nil => rfl
  | cons p rest ih =>
    simp only [lookupA, List.map_cons] at ih ⊢
    by_cases hp : p.1 = k
    · rw [show (if (p.1 == k) = true then (k, v) else p) = (k, v) by simp [hp]]
      rw [List.find?_cons_of_neg _ (by simp [Ne.symm h]),
        List.find?_cons_of_neg _ (by simp [hp, Ne.symm h])]
      exact ih
    · rw [show (if (p.1 == k) = true then (k, v) else p) = p by simp [hp]]
      by_cases hq : p.1 = k'
      · rw [List.find?_cons_of_pos _ (by simp [hq]), List.find?_cons_of_pos _ (by simp [hq])]
      · rw [List.find?_cons_of_neg _ (by simp [hq]), List.find?_cons_of_neg _ (by simp [hq])]
        exact ih

/-- Looking a key up right after setting it yields the set value. -/
theorem lookupA_setA_self {α : Type} (l : List (String × α)) (k : String) (v : α) :
    lookupA (setA l k v) k = some v := by
  unfold setA
  by_cases h : (l.find? (fun p => p.1 == k)).isSome
  · rw [if_pos h, lookupA_map_update]
    cases hf : l.find? (fun p => p.1 == k) with
    | none => rw [hf] at h; simp at h
    | some x => simp [lookupA, hf]
  · rw [if_neg h]
    have hn : l.find? (fun p => p.1 == k) = none := by
      cases hf : l.find? (fun p => p.1 == k) with
      | none => rfl
      | some x => rw [hf] at h; simp at h
    simp [lookupA, List.find?_append, hn, List.find?]

/-- Setting one key leaves lookups of other keys unchanged. -/
theorem lookupA_setA_ne {α : Type} (l : List (String × α)) (k k' : String) (v : α)
    (h : k' ≠ k) : lookupA (setA l k v) k' = lookupA l k' := by
  unfold setA
  by_cases hs : (l.find? (fun p => p.1 == k)).isSome
  · rw [if_pos hs, lookupA_map_update_ne _ _ _ _ h]
  · rw [if_neg hs]
    simp only [lookupA, List.find?_append]
    cases hf : l.find? (fun p => p.1 == k') with
    | some x => simp [hf]
    | none => simp [hf, List.find?, show (k == k') = false by simp [Ne.symm h]]

/-- One `add_event` call on a registered job with a registered queue: it
returns the new event, appends it to the job's event log, and enqueues it at
the back of the job's queue. -/
theorem add_event_step (m : JobManager) (job_id : String) (job : Job) (q : List JobEvent)
    (et : EventType) (d : String) (ts : Nat)
    (hj : lookupA m.jobs job_id = some job) (hq : lookupA m.queues job_id = some q) :
    (m.add_event job_id et d ts).2 = .ok { event_type := et, data := d, timestamp := ts } ∧
      lookupA (m.add_event job_id et d ts).1.jobs job_id
        = some { job with
            events := job.events ++ [{ event_type := et, data := d, timestamp := ts }] } ∧
      lookupA (m.add_event job_id et d ts).1.queues job_id
        = some (q ++ [{ event_type := et, data := d, timestamp := ts }]) := by
  refine ⟨?_, ?_, ?_⟩ <;>
    simp [JobManager.add_event, JobManager.get_job, hj, hq, lookupA_setA_self]

/-- C1: for every (current, target) pair that is not an edge of the
transition table — in particular for every pair leaving COMPLETE or FAILED,
which have no outgoing edges — `transition` raises `InvalidTransitionError`
carrying exactly the current and the rejected target state, and leaves the
manager (hence the job's state and every other field) unchanged. -/
theorem c1_invalid_transition_rejected (m : JobManager) (job_id : String) (job : Job)
    (target : JobState) (t : Nat)
    (hj : lookupA m.jobs job_id = some job)
    (hna : target ∉ ALLOWED_TRANSITIONS job.state) :
    ALLOWED_TRANSITIONS .COMPLETE = [] ∧ ALLOWED_TRANSITIONS .FAILED = [] ∧
      m.transition job_id target t = (m, .error (.invalidTransition job.state target)) := by
  refine ⟨rfl, rfl, ?_⟩
  simp [JobManager.transition, JobManager.get_job, hj, validate_transition, hna]

/-- Witness for C1: a COMPLETE job rejects a move to DRAFT and the manager is
untouched. -/
theorem c1_invalid_transition_rejected_witness :
    (sampleManager .COMPLETE).transition "j1" .DRAFT 5
      = (sampleManager .COMPLETE, .error (.invalidTransition .COMPLETE .DRAFT)) :=
  (c1_invalid_transition_rejected (sampleManager .COMPLETE) "j1" (sampleJob .COMPLETE)
    .DRAFT 5 (by rfl) (by decide)).2.2

/-- C2: for every (current, target) edge of the transition table,
`transition` on a registered job in state `current` succeeds, the returned
and re-registered record's state equals `target`, its `updated_at` is
refreshed to the `datetime.now` drawn during the call, and no other field
changes. -/
theorem c2_allowed_transition_succeeds (m : JobManager) (job_id : String) (job : Job)
    (target : JobState) (t : Nat)
    (hj : lookupA m.jobs job_id = some job)
    (ha : target ∈ ALLOWED_TRANSITIONS job.state) :
    (m.transition job_id target t).2 = .ok { job with state := target, updated_at := t } ∧
      lookupA (m.transition job_id target t).1.jobs job_id
        = some { job with state := target, updated_at := t } := by
  simp [JobManager.transition, JobManager.get_job, hj, validate_transition, ha,
    lookupA_setA_self]

/-- Witness for C2: DRAFT moves to ASK_RUNNING and the record is updated. -/
theorem c2_allowed_transition_succeeds_witness :
    ((sampleManager .DRAFT).transition "j1" .ASK_RUNNING 5).2
        = .ok { sampleJob .DRAFT with state := .ASK_RUNNING, updated_at := 5 } ∧
      lookupA ((sampleManager .DRAFT).transition "j1" .ASK_RUNNING 5).1.jobs "j1"
        = some { sampleJob .DRAFT with state := .ASK_RUNNING, updated_at := 5 } :=
  c2_allowed_transition_succeeds (sampleManager .DRAFT) "j1" (sampleJob .DRAFT)
    .ASK_RUNNING 5 (by rfl) (by decide)

/-- C8: every `create_job` call returns a job in state DRAFT whose id is the
freshly drawn uuid hex, whose artifacts directory `artifacts_root/id` exists
on disk afterwards, which is registered with an empty event queue; and two
calls whose uuid draws differ return jobs with distinct ids. -/
theorem c8_create_job_fresh (m : JobManager) (p q a b : String) (t1 t2 : Nat)
    (hab : a ≠ b) :
    (m.create_job p a t1).2.state = .DRAFT ∧
      (m.create_job p a t1).2.job_id = a ∧
      (m.create_job p a t1).2.artifacts_dir = m.artifacts_root ++ "/" ++ a ∧
      (m.artifacts_root ++ "/" ++ a) ∈ (m.create_job p a t1).1.fs_dirs ∧
      lookupA (m.create_job p a t1).1.queues a = some [] ∧
      lookupA (m.create_job p a t1).1.jobs a = some (m.create_job p a t1).2 ∧
      ((m.create_job p a t1).1.create_job q b t2).2.job_id ≠ (m.create_job p a t1).2.job_id := by
  refine ⟨rfl, rfl, rfl, ?_, ?_, ?_, ?_⟩
  · by_cases h : (m.artifacts_root ++ "/" ++ a) ∈ m.fs_dirs
    · simp [JobManager.create_job, h]
    · simp [JobManager.create_job, h]
  · exact lookupA_setA_self _ _ _
  · exact lookupA_setA_self _ _ _
  · simpa [JobManager.create_job] using fun h => hab h.symm

/-- Witness for C8: two concrete creations with distinct uuid draws. -/
theorem c8_create_job_fresh_witness :
    (JobManager.create_job { artifacts_root := "/a" } "/p" "aaa111" 3).2.state = .DRAFT ∧
      (JobManager.create_job { artifacts_root := "/a" } "/p" "aaa111" 3).2.job_id = "aaa111" ∧
      (JobManager.create_job { artifacts_root := "/a" } "/p" "aaa111" 3).2.artifacts_dir
        = "/a" ++ "/" ++ "aaa111" ∧
      ("/a" ++ "/" ++ "aaa111")
        ∈ (JobManager.create_job { artifacts_root := "/a" } "/p" "aaa111" 3).1.fs_dirs ∧
      lookupA (JobManager.create_job { artifacts_root := "/a" } "/p" "aaa111" 3).1.queues "aaa111"
        = some [] ∧
      lookupA (JobManager.create_job { artifacts_root := "/a" } "/p" "aaa111" 3).1.jobs "aaa111"
        = some (JobManager.create_job { artifacts_root := "/a" } "/p" "aaa111" 3).2 ∧
      ((JobManager.create_job { artifacts_root := "/a" } "/p" "aaa111" 3).1.create_job
          "/p2" "bbb222" 4).2.job_id
        ≠ (JobManager.create_job { artifacts_root := "/a" } "/p" "aaa111" 3).2.job_id :=
  c8_create_job_fresh { artifacts_root := "/a" } "/p" "/p2" "aaa111" "bbb222" 3 4 (by decide)

/-- C9: `get_job` on an unknown id and `get_job_by_plan_id` on a plan id no
job carries both raise the typed `KeyError`; `get_job` on a known id returns
exactly the registered record, and `get_job_by_plan_id` on a carried plan id
returns the registered record that carries it. -/
theorem c9_lookup_semantics (m : JobManager) (i pid k : String) (j j2 : Job) :
    (lookupA m.jobs i = none →
      m.get_job i = .error (.keyError ("Job '" ++ i ++ "' not found"))) ∧
    (lookupA m.jobs i = some j → m.get_job i = .ok j) ∧
    (m.jobs.find? (fun p => p.2.plan_id == pid) = none →
      m.get_job_by_plan_id pid
        = .error (.keyError ("No job found with plan_id '" ++ pid ++ "'"))) ∧
    (m.jobs.find? (fun p => p.2.plan_id == pid) = some (k, j2) →
      m.get_job_by_plan_id pid = .ok j2 ∧ j2.plan_id = pid ∧ (k, j2) ∈ m.jobs) := by
  refine ⟨?_, ?_, ?_, ?_⟩
  · intro h; simp [JobManager.get_job, h]
  · intro h; simp [JobManager.get_job, h]
  · intro h; simp [JobManager.get_job_by_plan_id, h]
  · intro h
    refine ⟨by simp [JobManager.get_job_by_plan_id, h], ?_, List.mem_of_find?_eq_some h⟩
    have := List.find?_some h
    simpa using this

/-- Witness for C9: a concrete two-job registry exercising all four cases. -/
theorem c9_lookup_semantics_witness :
    ((sampleManager .DRAFT).get_job "zz"
        = .error (.keyError ("Job '" ++ "zz" ++ "' not found"))) ∧
      ((sampleManager .DRAFT).get_job "j1" = .ok (sampleJob .DRAFT)) ∧
      ((sampleManager .DRAFT).get_job_by_plan_id "nope"
        = .error (.keyError ("No job found with plan_id '" ++ "nope" ++ "'"))) ∧
      ((sampleManager .DRAFT).get_job_by_plan_id "" = .ok (sampleJob .DRAFT) ∧
        (sampleJob .DRAFT).plan_id = "" ∧ ("j1", sampleJob .DRAFT) ∈ (sampleManager .DRAFT).jobs) :=
  ⟨(c9_lookup_semantics (sampleManager .DRAFT) "zz" "nope" "j1" (sampleJob .DRAFT)
      (sampleJob .DRAFT)).1 (by rfl),
    (c9_lookup_semantics (sampleManager .DRAFT) "j1" "nope" "j1" (sampleJob .DRAFT)
      (sampleJob .DRAFT)).2.1 (by rfl),
    (c9_lookup_semantics (sampleManager .DRAFT) "j1" "nope" "j1" (sampleJob .DRAFT)
      (sampleJob .DRAFT)).2.2.1 (by rfl),
    (c9_lookup_semantics (sampleManager .DRAFT) "j1" "" "j1" (sampleJob .DRAFT)
      (sampleJob .DRAFT)).2.2.2 (by rfl)⟩

/-- C10: when the registry holds a job whose `plan_id` still has its default
empty-string value, `get_job_by_plan_id ""` does not raise: the linear scan
in registration order returns the first such never-planned job. -/
theorem c10_empty_plan_id_matches (m : JobManager) (pre post : List (String × Job))
    (k : String) (j : Job)
    (hsplit : m.jobs = pre ++ (k, j) :: post)
    (hpre : ∀ e ∈ pre, e.2.plan_id ≠ "")
    (hj : j.plan_id = "") :
    m.get_job_by_plan_id "" = .ok j := by
  unfold JobManager.get_job_by_plan_id
  rw [hsplit, List.find?_append]
  have hnone : pre.find? (fun p => p.2.plan_id == "") = none := by
    rw [List.find?_eq_none]
    intro x hx
    simpa using hpre x hx
  rw [hnone]
  simp [List.find?, hj]

/-- Witness for C10: a registry whose first job was never planned. -/
theorem c10_empty_plan_id_matches_witness :
    (sampleManager .DRAFT).get_job_by_plan_id "" = .ok (sampleJob .DRAFT) :=
  c10_empty_plan_id_matches (sampleManager .DRAFT) [] [] "j1" (sampleJob .DRAFT)
    (by rfl) (by simp) (by rfl)

/-- C6: for every sequence of `add_event` calls on one job, the job's queue
afterwards holds exactly the added events, behind whatever was already
queued, in call order and with the payload and category they were added with
(so the draining consumer observes them FIFO, without loss or duplication),
and the job's event log is the old log extended by exactly those events, in
order. -/
theorem c6_events_fifo (m : JobManager) (job_id : String) (job : Job) (q : List JobEvent)
    (items : List (EventType × String × Nat))
    (hj : lookupA m.jobs job_id = some job)
    (hq : lookupA m.queues job_id = some q) :
    lookupA (add_events m job_id items).queues job_id = some (q ++ items.map mkEv) ∧
      lookupA (add_events m job_id items).jobs job_id
        = some { job with events := job.events ++ items.map mkEv } := by
  induction items generalizing m job q with
  | nil =>
    refine ⟨by simpa [add_events] using hq, ?_⟩
    simpa [add_events] using hj
  | cons i rest ih =>
    obtain ⟨et, d, ts⟩ := i
    have step := add_event_step m job_id job q et d ts hj hq
    have h2 := ih ((m.add_event job_id et d ts).1)
      { job with events := job.events ++ [mkEv (et, d, ts)] } (q ++ [mkEv (et, d, ts)])
      step.2.1 step.2.2
    simpa [add_events, mkEv, List.append_assoc] using h2

/-- Witness for C6: two concrete events drained in the order they were
added. -/
theorem c6_events_fifo_witness :
    lookupA (add_events (sampleManager .DRAFT) "j1"
          [(.LOG, "hello", 1), (.STEP, "two", 2)]).queues "j1"
        = some ([] ++ [(.LOG, "hello", 1), (.STEP, "two", 2)].map mkEv) ∧
      lookupA (add_events (sampleManager .DRAFT) "j1"
          [(.LOG, "hello", 1), (.STEP, "two", 2)]).jobs "j1"
        = some { sampleJob .DRAFT with
            events := (sampleJob .DRAFT).events
              ++ [(.LOG, "hello", 1), (.STEP, "two", 2)].map mkEv } :=
  c6_events_fifo (sampleManager .DRAFT) "j1" (sampleJob .DRAFT) []
    [(.LOG, "hello", 1), (.STEP, "two", 2)] (by rfl) (by rfl)

/-- C7 counterexample: empty captured output does not parse as a JSON object,
yet the invocation does not return the raw (empty) text with the error flag
clear — it returns the placeholder text with `is_error = True`. -/
theorem c7_empty_output_counterexample :
    invoke_cursor_model "" none
        = .ok { text := "(No response from agent)", session_id := "", duration_ms := 0,
                is_error := true } ∧
      ("(No response from agent)" : String) ≠ "" :=
  ⟨rfl, by decide⟩

/-- C7 as amended: for non-empty captured output, a failed JSON decode still
returns the raw text with the error flag clear; a decode to a JSON object
takes text, session token, duration and error flag from its `result`,
`session_id`, `duration_ms` and `is_error` fields (text defaulting to the
raw text when `result` is absent). -/
theorem c7_buffered_resilience (raw : String) (fields : List (String × Json))
    (txt sid : String) (dur : Int) (err : Bool)
    (hraw : raw ≠ "") :
    (invoke_cursor_model raw none
        = .ok { text := raw, session_id := "", duration_ms := 0, is_error := false }) ∧
      (fieldGet fields "result" (.str raw) = .str txt →
        fieldGet fields "session_id" (.str "") = .str sid →
        fieldGet fields "duration_ms" (.num 0) = .num dur →
        fieldGet fields "is_error" (.bool false) = .bool err →
        invoke_cursor_model raw (some (.obj fields))
          = .ok { text := txt, session_id := sid, duration_ms := dur, is_error := err }) := by
  constructor
  · simp [invoke_cursor_model, hraw]
  · intro h1 h2 h3 h4
    simp [invoke_cursor_model, hraw, h1, h2, h3, h4]

/-- Witness for C7 as amended: a non-JSON banner and a fully populated JSON
object. -/
theorem c7_buffered_resilience_witness :
    (invoke_cursor_model "oops, not json" none
        = .ok { text := "oops, not json", session_id := "", duration_ms := 0,
                is_error := false }) ∧
      (invoke_cursor_model "raw" (some (.obj [("result", .str "hi"),
            ("session_id", .str "s1"), ("duration_ms", .num 42), ("is_error", .bool false)]))
        = .ok { text := "hi", session_id := "s1", duration_ms := 42, is_error := false }) :=
  ⟨(c7_buffered_resilience "oops, not json" [] "x" "" 0 false (by decide)).1,
    (c7_buffered_resilience "raw" [("result", .str "hi"), ("session_id", .str "s1"),
        ("duration_ms", .num 42), ("is_error", .bool false)] "hi" "s1" 42 false
      (by decide)).2 rfl rfl rfl rfl⟩

/-- The streaming loop never reads past the sentinel: anything behind the
first `None` in the queue is invisible to the generator. -/
theorem drain_queue_stops_at_sentinel (q1 q2 : List (Option RawLine)) :
    drain_queue (q1 ++ none :: q2) = drain_queue (q1 ++ [none]) := by
  induction q1 with
  | nil => rfl
  | cons x rest ih =>
    cases x with
    | none => rfl
    | some line =>
      simp only [List.cons_append, drain_queue, List.append_eq]
      rw [ih]

/-- The rendering of a JSON object is never the empty string (it is at least
the brace pair), so `str(chunk)` is always truthy in the fallback branch. -/
theorem dumps_obj_truthy (fields : List (String × Json)) :
    (Json.str (Json.obj fields).pyStr).truthy = true := by
  simp only [Json.pyStr, Json.truthy, Json.dumps, ne_eq, bne_iff_ne]
  intro h
  have h2 := congrArg String.length h
  simp [String.length_append] at h2
  exact absurd h2.2 (by decide)

/-- C5 as amended: a line that fails JSON decoding is yielded verbatim; a
`text_delta` chunk yields its content when truthy (an empty delta is
swallowed); a `result` chunk yields the terminal marker carrying the full
chunk only when its `result` text is truthy (an empty final answer is
swallowed, not yielded as a marker); `tool_use` and `tool_result` chunks
yield short annotations; any other JSON object chunk yields its content,
else its result, else its whole-chunk rendering; nothing behind the
end-of-output sentinel is ever yielded; and the worker's exit status is
handed back to the caller. -/
theorem c5_streaming_classification (s : String) (fields : List (String × Json))
    (q1 q2 : List (Option RawLine)) (parse : String → RawLine)
    (lines : List String) (rc : Int) :
    (classify_line (.notJson s) = .ok [.str s]) ∧
      (typeTag (fieldGet fields "type" (.str "")) = some "text_delta" →
        classify_chunk (.obj fields)
          = .ok (if (fieldGet fields "content" (.str "")).truthy
              then [fieldGet fields "content" (.str "")] else [])) ∧
      (typeTag (fieldGet fields "type" (.str "")) = some "result" →
        classify_chunk (.obj fields)
          = .ok (if (fieldGet fields "result" (.str "")).truthy
              then [.str ("__result__::" ++ (Json.obj fields).dumps)] else [])) ∧
      (typeTag (fieldGet fields "type" (.str "")) = some "tool_use" →
        classify_chunk (.obj fields)
          = .ok [.str ("[Tool: " ++ (fieldGet fields "name" (.str "unknown")).pyStr ++ "]")]) ∧
      (typeTag (fieldGet fields "type" (.str "")) = some "tool_result" →
        classify_chunk (.obj fields) = .ok [.str "[Tool completed]"]) ∧
      (typeTag (fieldGet fields "type" (.str ""))
          ∉ [some "text_delta", some "result", some "tool_use", some "tool_result"] →
        classify_chunk (.obj fields)
          = .ok (if (fieldGet fields "content" (.str "")).truthy
              then [fieldGet fields "content" (.str "")]
              else if (fieldGet fields "result" (.str "")).truthy
                then [fieldGet fields "result" (.str "")]
                else [.str (Json.obj fields).pyStr])) ∧
      (drain_queue (q1 ++ none :: q2) = drain_queue (q1 ++ [none])) ∧
      ((invoke_cursor_streaming parse lines rc).2 = rc) := by
  refine ⟨rfl, ?_, ?_, ?_, ?_, ?_, drain_queue_stops_at_sentinel q1 q2, rfl⟩
  · intro h
    simp [classify_chunk, jsonGet, h]
  · intro h
    simp [classify_chunk, jsonGet, h]
  · intro h
    simp [classify_chunk, jsonGet, h]
  · intro h
    simp [classify_chunk, jsonGet, h]
  · intro h
    simp only [List.mem_cons, List.not_mem_nil, or_false, not_or] at h
    obtain ⟨h1, h2, h3, h4⟩ := h
    simp only [classify_chunk, jsonGet, h1, h2, h3, h4, if_neg, ite_false]
    by_cases hc : (fieldGet fields "content" (.str "")).truthy
    · simp [hc]
    · by_cases hr : (fieldGet fields "result" (.str "")).truthy
      · simp [hc, hr]
      · simp [hc, hr, dumps_obj_truthy]

/-- C5 counterexample: a `result` chunk whose `result` text is empty yields
nothing at all — in particular no terminal marker item — refuting the claim
that every `result` chunk yields a marker carrying the full chunk. -/
theorem c5_empty_result_counterexample :
    classify_chunk resultChunkEmpty = .ok [] ∧
      (Except.ok ([] : List Json) : Except PyExc (List Json))
        ≠ .ok [.str ("__result__::" ++ resultChunkEmpty.dumps)] := by
  refine ⟨rfl, ?_⟩
  intro h
  simp at h

/-- Witness for C5 as amended: one concrete chunk of every kind, the
sentinel cut-off, and the exit status pass-through. -/
theorem c5_streaming_classification_witness :
    (classify_line (.notJson "plain line") = .ok [.str "plain line"]) ∧
      (classify_chunk (.obj [("type", .str "text_delta"), ("content", .str "hi")])
        = .ok [.str "hi"]) ∧
      (classify_chunk (.obj [("type", .str "result"), ("result", .str "done")])
        = .ok [.str ("__result__::"
            ++ (Json.obj [("type", .str "result"), ("result", .str "done")]).dumps)]) ∧
      (classify_chunk (.obj [("type", .str "tool_use"), ("name", .str "grep")])
        = .ok [.str ("[Tool: " ++ "grep" ++ "]")]) ∧
      (classify_chunk (.obj [("type", .str "tool_result")]) = .ok [.str "[Tool completed]"]) ∧
      (classify_chunk (.obj [("type", .str "status"), ("content", .str "busy")])
        = .ok [.str "busy"]) ∧
      (drain_queue ([some (.notJson "a")] ++ none :: [some (.notJson "b")])
        = drain_queue ([some (.notJson "a")] ++ [none])) ∧
      ((invoke_cursor_streaming (fun s => .notJson s) ["x", ""] 7).2 = 7) := by
  refine ⟨(c5_streaming_classification "plain line" [] [] [] (fun s => .notJson s) [] 0).1,
    ?_, ?_, ?_, ?_, ?_,
    (c5_streaming_classification "x" [] [some (.notJson "a")] [some (.notJson "b")]
      (fun s => .notJson s) [] 0).2.2.2.2.2.2.1,
    (c5_streaming_classification "x" [] [] [] (fun s => .notJson s) ["x", ""] 7).2.2.2.2.2.2.2⟩
  · simpa using (c5_streaming_classification "x"
      [("type", .str "text_delta"), ("content", .str "hi")] [] [] (fun s => .notJson s)
      [] 0).2.1 rfl
  · simpa using (c5_streaming_classification "x"
      [("type", .str "result"), ("result", .str "done")] [] [] (fun s => .notJson s)
      [] 0).2.2.1 rfl
  · simpa using (c5_streaming_classification "x"
      [("type", .str "tool_use"), ("name", .str "grep")] [] [] (fun s => .notJson s)
      [] 0).2.2.2.1 rfl
  · simpa using (c5_streaming_classification "x"
      [("type", .str "tool_result")] [] [] (fun s => .notJson s) [] 0).2.2.2.2.1 rfl
  · simpa using (c5_streaming_classification "x"
      [("type", .str "status"), ("content", .str "busy")] [] [] (fun s => .notJson s)
      [] 0).2.2.2.2.2.1 (by decide)

/-- C3 evidence: when `invoke_cursor` raises `FileNotFoundError`
(AgentUnavailable), the plan handler propagates the raw exception and leaves
the job stuck in PLAN_RUNNING with no ERROR event — no FAILED transition
happens — while the ask handler on the same failure transitions the job to
FAILED, records the ERROR event, and surfaces an HTTP 500. -/
theorem c3_plan_agent_unavailable_divergence :
    (plan_handler { artifacts_root := "/a" } "/p" "" "j1" "p1"
          (.agentUnavailable "no agent") 7).2
        = .error (.fileNotFoundError "no agent") ∧
      (∃ j, lookupA (plan_handler { artifacts_root := "/a" } "/p" "" "j1" "p1"
            (.agentUnavailable "no agent") 7).1.jobs "j1" = some j ∧
          j.state = .PLAN_RUNNING ∧ j.events = []) ∧
      ((ask_handler { artifacts_root := "/a" } "/p" "" "j1"
          (.agentUnavailable "no agent") 7).2
        = .error (.httpException 500 ("Cursor CLI not found: " ++ "no agent"))) ∧
      (∃ j, lookupA (ask_handler { artifacts_root := "/a" } "/p" "" "j1"
            (.agentUnavailable "no agent") 7).1.jobs "j1" = some j ∧
          j.state = .FAILED ∧
          j.events = [{ event_type := .ERROR, data := "Cursor CLI not found: " ++ "no agent",
                        timestamp := 7 }]) :=
  ⟨rfl, ⟨_, rfl, rfl, rfl⟩, rfl, ⟨_, rfl, rfl, rfl⟩⟩

/-- One async-for iteration of `_run_execution` either leaves the manager
untouched (marker chunks, including the swallowed decode failure and the
uncaught `AttributeError` on a non-dict payload) or performs exactly one
successful LOG `add_event`. -/
theorem process_chunk_cases (parse : String → Option Json) (m : JobManager)
    (job_id : String) (job : Job) (q : List JobEvent) (acc : List String)
    (c : String) (t : Nat)
    (hj : lookupA m.jobs job_id = some job)
    (hq : lookupA m.queues job_id = some q) :
    (∃ acc', process_chunk parse m job_id acc c t = ((m, acc'), .ok ())) ∨
      process_chunk parse m job_id acc c t = ((m, acc), .error .attributeError) ∨
      (process_chunk parse m job_id acc c t
          = (((m.add_event job_id .LOG c t).1, acc ++ [c]), .ok ()) ∧
        lookupA (m.add_event job_id .LOG c t).1.jobs job_id
          = some { job with events := job.events ++ [⟨.LOG, c, t⟩] } ∧
        lookupA (m.add_event job_id .LOG c t).1.queues job_id = some (q ++ [⟨.LOG, c, t⟩])) := by
  by_cases hc : c.startsWith "__result__::"
  · cases hparse : parse (c.drop ("__result__::".length)) with
    | none => exact .inl ⟨acc, by simp [process_chunk, hc, hparse]⟩
    | some data =>
      cases data with
      | obj fs =>
        exact .inl ⟨if (fieldGet fs "result" (Json.str "")).truthy
            then acc ++ [(fieldGet fs "result" (Json.str "")).pyStr] else acc,
          by simp [process_chunk, hc, hparse, jsonGet]⟩
      | null => exact .inr (.inl (by simp [process_chunk, hc, hparse, jsonGet]))
      | bool b => exact .inr (.inl (by simp [process_chunk, hc, hparse, jsonGet]))
      | num n => exact .inr (.inl (by simp [process_chunk, hc, hparse, jsonGet]))
      | str s => exact .inr (.inl (by simp [process_chunk, hc, hparse, jsonGet]))
      | arr xs => exact .inr (.inl (by simp [process_chunk, hc, hparse, jsonGet]))
  · have step := add_event_step m job_id job q .LOG c t hj hq
    refine .inr (.inr ⟨?_, step.2.1, step.2.2⟩)
    rcases hres : m.add_event job_id .LOG c t with ⟨m', res⟩
    have hok := step.1
    rw [hres] at hok
    simp only at hok
    simp [process_chunk, hc, hres, hok]

/-- One `process_step` in the normal state runs `process_chunk`. -/
theorem process_step_ok (parse : String → Option Json) (job_id : String) (t : Nat)
    (mm : JobManager) (aa : List String) (c : String) :
    process_step parse job_id t ((mm, aa), .ok ()) c = process_chunk parse mm job_id aa c t :=
  rfl

/-- One `process_step` in the error state changes nothing. -/
theorem process_step_error (parse : String → Option Json) (job_id : String) (t : Nat)
    (mm : JobManager) (aa : List String) (e : PyExc) (c : String) :
    process_step parse job_id t ((mm, aa), .error e) c = ((mm, aa), .error e) :=
  rfl

/-- Once the loop state is an error, the remaining chunks are absorbed. -/
theorem foldl_process_step_error (parse : String → Option Json) (job_id : String) (t : Nat)
    (mm : JobManager) (aa : List String) (e : PyExc) (rest : List String) :
    rest.foldl (process_step parse job_id t) ((mm, aa), .error e) = ((mm, aa), .error e) := by
  induction rest with
  | nil => rfl
  | cons c r ih => simpa [List.foldl_cons, process_step_error] using ih

/-- Draining any chunk sequence only ever appends LOG events: the job stays
registered with its state and every non-event field unchanged, and the queue
receives exactly the appended events. -/
theorem process_chunks_inv (parse : String → Option Json) (m : JobManager)
    (job_id : String) (job : Job) (q : List JobEvent) (acc chunks : List String) (t : Nat)
    (hj : lookupA m.jobs job_id = some job)
    (hq : lookupA m.queues job_id = some q) :
    ∃ evs, lookupA (process_chunks parse m job_id acc chunks t).1.1.jobs job_id
        = some { job with events := job.events ++ evs } ∧
      lookupA (process_chunks parse m job_id acc chunks t).1.1.queues job_id
        = some (q ++ evs) := by
  induction chunks generalizing m job q acc with
  | nil =>
    exact ⟨[], by simpa using hj, by simpa using hq⟩
  | cons c rest ih =>
    rcases process_chunk_cases parse m job_id job q acc c t hj hq with
      ⟨acc', hstep⟩ | hstep | ⟨hstep, hjobs, hqueues⟩
    · have h2 := ih m job q acc' hj hq
      have hred : process_chunks parse m job_id acc (c :: rest) t
          = process_chunks parse m job_id acc' rest t := by
        simp only [process_chunks, List.foldl_cons, process_step_ok, hstep]
      rw [hred]
      exact h2
    · have hred : process_chunks parse m job_id acc (c :: rest) t
          = ((m, acc), .error .attributeError) := by
        simp only [process_chunks, List.foldl_cons, process_step_ok, hstep]
        exact foldl_process_step_error parse job_id t m acc .attributeError rest
      rw [hred]
      exact ⟨[], by simpa using hj, by simpa using hq⟩
    · obtain ⟨evs, h1, h2⟩ := ih ((m.add_event job_id .LOG c t).1)
        { job with events := job.events ++ [⟨.LOG, c, t⟩] } (q ++ [⟨.LOG, c, t⟩])
        (acc ++ [c]) hjobs hqueues
      have hred : process_chunks parse m job_id acc (c :: rest) t
          = process_chunks parse ((m.add_event job_id .LOG c t).1) job_id (acc ++ [c]) rest t := by
        simp only [process_chunks, List.foldl_cons, process_step_ok, hstep]
      refine ⟨⟨.LOG, c, t⟩ :: evs, ?_, ?_⟩
      · rw [hred]
        simpa [List.append_assoc] using h1
      · rw [hred]
        simpa [List.append_assoc] using h2

/-- `pyBind` runs the continuation after a normal return. -/
theorem pyBind_ok {A B : Type} (m : JobManager) (a : A)
    (f : JobManager → A → JobManager × Except PyExc B) :
    pyBind (m, .ok a) f = f m a := rfl

/-- `pyBind` propagates an exception with the state at the raise. -/
theorem pyBind_error {A B : Type} (m : JobManager) (e : PyExc)
    (f : JobManager → A → JobManager × Except PyExc B) :
    pyBind (m, .error e) f = (m, .error e) := rfl

/-- `pyBind2` runs the continuation after a normal return. -/
theorem pyBind2_ok (m : JobManager) (acc : List String)
    (f : JobManager → List String → JobManager × Except PyExc Unit) :
    pyBind2 ((m, acc), .ok ()) f = f m acc := rfl

/-- `pyBind2` propagates an exception with the state at the raise. -/
theorem pyBind2_error (m : JobManager) (acc : List String) (e : PyExc)
    (f : JobManager → List String → JobManager × Except PyExc Unit) :
    pyBind2 ((m, acc), .error e) f = (m, .error e) := rfl

/-- `save_artifact` on a registered job returns the artifact path, touches
only the file store, and records the written content. -/
theorem save_artifact_spec (m : JobManager) (job_id : String) (j : Job) (fn content : String)
    (hj : lookupA m.jobs job_id = some j) :
    ∃ m', m.save_artifact job_id fn content = (m', .ok (j.artifacts_dir ++ "/" ++ fn)) ∧
      m'.jobs = m.jobs ∧ m'.queues = m.queues ∧
      lookupA m'.fs_files (j.artifacts_dir ++ "/" ++ fn) = some content := by
  have hg : m.get_job job_id = .ok j := by simp [JobManager.get_job, hj]
  refine ⟨{ m with fs_files := setA m.fs_files (j.artifacts_dir ++ "/" ++ fn) content },
    ?_, rfl, rfl, lookupA_setA_self _ _ _⟩
  simp [JobManager.save_artifact, hg]

/-- `transition` along a legal edge, packaged with what it leaves alone. -/
theorem transition_spec (m : JobManager) (job_id : String) (j : Job) (target : JobState)
    (t : Nat)
    (hj : lookupA m.jobs job_id = some j) (ha : target ∈ ALLOWED_TRANSITIONS j.state) :
    ∃ m', m.transition job_id target t = (m', .ok { j with state := target, updated_at := t }) ∧
      lookupA m'.jobs job_id = some { j with state := target, updated_at := t } ∧
      m'.queues = m.queues ∧ m'.fs_files = m.fs_files := by
  refine ⟨{ m with jobs := setA m.jobs job_id { j with state := target, updated_at := t } },
    ?_, lookupA_setA_self _ _ _, rfl, rfl⟩
  simp [JobManager.transition, JobManager.get_job, hj, validate_transition, ha]

/-- `add_event` on a registered job with a registered queue, packaged with
what it leaves alone. -/
theorem add_event_spec (m : JobManager) (job_id : String) (j : Job) (q : List JobEvent)
    (et : EventType) (d : String) (ts : Nat)
    (hj : lookupA m.jobs job_id = some j) (hq : lookupA m.queues job_id = some q) :
    ∃ m', m.add_event job_id et d ts = (m', .ok ⟨et, d, ts⟩) ∧
      lookupA m'.jobs job_id = some { j with events := j.events ++ [⟨et, d, ts⟩] } ∧
      lookupA m'.queues job_id = some (q ++ [⟨et, d, ts⟩]) ∧
      m'.fs_files = m.fs_files ∧ m'.artifacts_root = m.artifacts_root := by
  refine ⟨{ m with
      jobs := setA m.jobs job_id { j with events := j.events ++ [⟨et, d, ts⟩] }
      queues := setA m.queues job_id (q ++ [⟨et, d, ts⟩]) },
    ?_, lookupA_setA_self _ _ _, lookupA_setA_self _ _ _, rfl, rfl⟩
  simp [JobManager.add_event, JobManager.get_job, hj, hq]

/-- The `try` block of `_run_execution`, summarized: the job stays registered
(with an intact queue and an unchanged artifacts directory); when the block
returns normally the job has reached COMPLETE, when it raises the job is
still in EXECUTING (so the except block's FAILED transition is legal); and a
drain that raises always surfaces as a block exception. -/
theorem run_execution_body_spec (parse : String → Option Json) (m : JobManager)
    (job_id : String) (job : Job) (q : List JobEvent) (chunks : List String)
    (outcome : DrainOutcome) (t : Nat)
    (hj : lookupA m.jobs job_id = some job)
    (hs : job.state = .EXECUTING)
    (hq : lookupA m.queues job_id = some q) :
    ∃ jb qb,
      lookupA (run_execution_body parse m job_id chunks outcome t).1.jobs job_id = some jb ∧
      lookupA (run_execution_body parse m job_id chunks outcome t).1.queues job_id = some qb ∧
      jb.artifacts_dir = job.artifacts_dir ∧
      ((run_execution_body parse m job_id chunks outcome t).2 = .ok () → jb.state = .COMPLETE) ∧
      (∀ e, (run_execution_body parse m job_id chunks outcome t).2 = .error e →
        jb.state = .EXECUTING) ∧
      (∀ msg, outcome = .raised msg →
        ∃ e, (run_execution_body parse m job_id chunks outcome t).2 = .error e) := by
  have step := add_event_step m job_id job q .STEP
    "Starting Cursor agent in execute mode (streaming)" t hj hq
  rcases hae : m.add_event job_id .STEP
      "Starting Cursor agent in execute mode (streaming)" t with ⟨m1, res1⟩
  rw [hae] at step
  simp only at step
  obtain ⟨hres1, hj1, hq1⟩ := step
  obtain ⟨evs, hj2r, hq2r⟩ := process_chunks_inv parse m1 job_id _ _ [] chunks t hj1 hq1
  rcases hpc : process_chunks parse m1 job_id [] chunks t with ⟨⟨m2, acc⟩, r⟩
  rw [hpc] at hj2r hq2r
  simp only at hj2r hq2r
  obtain ⟨jb2, hj2, hsb, hdirb⟩ :
      ∃ jb2, lookupA m2.jobs job_id = some jb2 ∧ jb2.state = .EXECUTING ∧
        jb2.artifacts_dir = job.artifacts_dir := ⟨_, hj2r, hs, rfl⟩
  obtain ⟨qb2, hq2⟩ : ∃ qb2, lookupA m2.queues job_id = some qb2 := ⟨_, hq2r⟩
  have hbody : run_execution_body parse m job_id chunks outcome t
      = pyBind2 (process_chunks parse m1 job_id [] chunks t)
          (fun m2 acc => after_drain m2 job_id acc outcome t) := by
    simp only [run_execution_body]
    rw [hae, hres1, pyBind_ok]
  cases r with
  | error e0 =>
    have hb2 : run_execution_body parse m job_id chunks outcome t = (m2, .error e0) := by
      rw [hbody, hpc, pyBind2_error]
    refine ⟨jb2, qb2, by rw [hb2]; exact hj2, by rw [hb2]; exact hq2, hdirb, ?_, ?_, ?_⟩
    · intro hok
      rw [hb2] at hok
      exact absurd hok (by simp)
    · intro e _
      exact hsb
    · intro msg _
      exact ⟨e0, by rw [hb2]⟩
  | ok u =>
    cases u
    cases outcome with
    | raised msg0 =>
      have hb2 : run_execution_body parse m job_id chunks (.raised msg0) t
          = (m2, .error (.streamError msg0)) := by
        rw [hbody, hpc, pyBind2_ok]
        rfl
      refine ⟨jb2, qb2, by rw [hb2]; exact hj2, by rw [hb2]; exact hq2, hdirb, ?_, ?_, ?_⟩
      · intro hok
        rw [hb2] at hok
        exact absurd hok (by simp)
      · intro e _
        exact hsb
      · intro msg hmsg
        exact ⟨.streamError msg0, by rw [hb2]⟩
    | completed =>
      have hb2 : run_execution_body parse m job_id chunks .completed t
          = finish_execution m2 job_id acc t := by
        rw [hbody, hpc, pyBind2_ok]
        rfl
      obtain ⟨m3, he3, hjobs3, hques3, hf3⟩ :=
        save_artifact_spec m2 job_id jb2 "logs.txt" (String.join acc) hj2
      have hj3 : lookupA m3.jobs job_id = some jb2 := by rw [hjobs3]; exact hj2
      have hq3 : lookupA m3.queues job_id = some qb2 := by rw [hques3]; exact hq2
      obtain ⟨m4, he4, hjobs4, hques4, hf4⟩ :=
        save_artifact_spec m3 job_id jb2 "job_summary.md" (String.join acc) hj3
      have hj4 : lookupA m4.jobs job_id = some jb2 := by rw [hjobs4]; exact hj3
      have hq4 : lookupA m4.queues job_id = some qb2 := by rw [hques4]; exact hq3
      obtain ⟨m5, he5, hj5, hques5, hf5⟩ :=
        transition_spec m4 job_id jb2 .COMPLETE t hj4 (by rw [hsb]; decide)
      have hq5 : lookupA m5.queues job_id = some qb2 := by rw [hques5]; exact hq4
      obtain ⟨m6, he6, hj6, hq6, hf6, hr6⟩ :=
        add_event_spec m5 job_id _ qb2 .DONE "Execution completed successfully" t hj5 hq5
      have hb3 : run_execution_body parse m job_id chunks .completed t = (m6, .ok ()) := by
        rw [hb2]
        simp only [finish_execution]
        rw [he3, pyBind_ok, he4, pyBind_ok, he5, pyBind_ok, he6, pyBind_ok]
      refine ⟨{ jb2 with
          state := .COMPLETE
          updated_at := t
          events := jb2.events ++ [⟨.DONE, "Execution completed successfully", t⟩] },
        qb2 ++ [⟨.DONE, "Execution completed successfully", t⟩], ?_, ?_, ?_, ?_, ?_, ?_⟩
      · rw [hb3]
        exact hj6
      · rw [hb3]
        exact hq6
      · exact hdirb
      · intro _
        rfl
      · intro e he
        rw [hb3] at he
        exact absurd he (by simp)
      · intro msg hmsg
        exact absurd hmsg (by simp)

/-- A normally returning `try` block leaves the except block untouched. -/
theorem handle_ok (m1 : JobManager) (job_id : String) (t : Nat) :
    handle_body_result (m1, .ok ()) job_id t = m1 := rfl

/-- `save_run_metadata` on a registered job: the registry is untouched and
`run.json` afterwards holds the serialized record. -/
theorem save_run_metadata_spec (m : JobManager) (job_id : String) (j : Job)
    (hj : lookupA m.jobs job_id = some j) :
    ∃ mf, (m.save_run_metadata job_id).1 = mf ∧ lookupA mf.jobs job_id = some j ∧
      lookupA mf.fs_files (j.artifacts_dir ++ "/" ++ "run.json") = some (dumpJob j) := by
  have hg : m.get_job job_id = .ok j := by simp [JobManager.get_job, hj]
  obtain ⟨mf, hsv, hjobsf, _, hfsf⟩ := save_artifact_spec m job_id j "run.json" (dumpJob j) hj
  refine ⟨mf, ?_, by rw [hjobsf]; exact hj, hfsf⟩
  simp only [JobManager.save_run_metadata]
  rw [hg]
  show (m.save_artifact job_id "run.json" (dumpJob j)).1 = mf
  rw [hsv]

/-- The except/finally tail on a raising body: the job is moved to FAILED, an
ERROR event carrying the exception's message is appended last, and `run.json`
holding the final record is persisted. -/
theorem handle_error_final (mb : JobManager) (job_id : String) (jb : Job)
    (qb : List JobEvent) (e : PyExc) (t : Nat)
    (hj : lookupA mb.jobs job_id = some jb)
    (hs : jb.state = .EXECUTING)
    (hq : lookupA mb.queues job_id = some qb) :
    ∃ j', lookupA ((handle_body_result (mb, .error e) job_id t).save_run_metadata
          job_id).1.jobs job_id = some j' ∧
      j'.state = .FAILED ∧
      j'.events.getLast? = some ⟨.ERROR, e.message, t⟩ ∧
      lookupA ((handle_body_result (mb, .error e) job_id t).save_run_metadata
          job_id).1.fs_files (jb.artifacts_dir ++ "/" ++ "run.json") = some (dumpJob j') := by
  obtain ⟨ma, htr, hja, hqa_eq, _⟩ :=
    transition_spec mb job_id jb .FAILED t hj (by rw [hs]; decide)
  have hqa : lookupA ma.queues job_id = some qb := by rw [hqa_eq]; exact hq
  obtain ⟨mae, haev, hjae, hqae, _, _⟩ :=
    add_event_spec ma job_id _ qb .ERROR e.message t hja hqa
  have hhandle : handle_body_result (mb, .error e) job_id t = mae := by
    simp only [handle_body_result]
    rw [htr]
    show (ma.add_event job_id .ERROR e.message t).1 = mae
    rw [haev]
  obtain ⟨jf, hjf, hjfstate, hjfdir, hjflast⟩ :
      ∃ jf, lookupA mae.jobs job_id = some jf ∧ jf.state = .FAILED ∧
        jf.artifacts_dir = jb.artifacts_dir ∧
        jf.events.getLast? = some ⟨.ERROR, e.message, t⟩ :=
    ⟨_, hjae, rfl, rfl, by simp [List.getLast?_append_cons]⟩
  obtain ⟨mf, hmf, hjobsf, hfsf⟩ := save_run_metadata_spec mae job_id jf hjf
  rw [hjfdir] at hfsf
  exact ⟨jf, by rw [hhandle, hmf]; exact hjobsf, hjfstate, hjflast, by rw [hhandle, hmf]; exact hfsf⟩

/-- C4: any exception raised while draining the streaming execution (whether
the drain itself raised or a marker chunk blew up) is caught at the phase
boundary: the job is transitioned to FAILED, an ERROR event whose payload is
the exception's message is recorded last, and `run.json` with the final job
record (state, timestamps, full event history) is persisted — and that
persistence happens unconditionally, on the success path as well as on every
failure path; moreover an injected drain exception always surfaces as a body
exception. -/
theorem c4_execute_failure_durability (parse : String → Option Json) (m : JobManager)
    (job_id : String) (job : Job) (q : List JobEvent) (chunks : List String)
    (outcome : DrainOutcome) (msg : String) (t : Nat)
    (hj : lookupA m.jobs job_id = some job)
    (hs : job.state = .EXECUTING)
    (hq : lookupA m.queues job_id = some q) :
    (∀ e, (run_execution_body parse m job_id chunks outcome t).2 = .error e →
      ∃ j', lookupA (run_execution parse m job_id chunks outcome t).jobs job_id = some j' ∧
        j'.state = .FAILED ∧
        j'.events.getLast? = some ⟨.ERROR, e.message, t⟩ ∧
        lookupA (run_execution parse m job_id chunks outcome t).fs_files
            (job.artifacts_dir ++ "/" ++ "run.json") = some (dumpJob j')) ∧
      (∃ e, (run_execution_body parse m job_id chunks (.raised msg) t).2 = .error e) ∧
      (∃ j', lookupA (run_execution parse m job_id chunks outcome t).jobs job_id = some j' ∧
        lookupA (run_execution parse m job_id chunks outcome t).fs_files
            (job.artifacts_dir ++ "/" ++ "run.json") = some (dumpJob j')) := by
  obtain ⟨jb, qb, hjb, hqb, hdir, hok, herr, _⟩ :=
    run_execution_body_spec parse m job_id job q chunks outcome t hj hs hq
  have hpart1 : ∀ e, (run_execution_body parse m job_id chunks outcome t).2 = .error e →
      ∃ j', lookupA (run_execution parse m job_id chunks outcome t).jobs job_id = some j' ∧
        j'.state = .FAILED ∧
        j'.events.getLast? = some ⟨.ERROR, e.message, t⟩ ∧
        lookupA (run_execution parse m job_id chunks outcome t).fs_files
            (job.artifacts_dir ++ "/" ++ "run.json") = some (dumpJob j') := by
    intro e he
    have hre : run_execution parse m job_id chunks outcome t
        = ((handle_body_result ((run_execution_body parse m job_id chunks outcome t).1,
              .error e) job_id t).save_run_metadata job_id).1 := by
      simp only [run_execution]
      conv_lhs =>
        rw [show run_execution_body parse m job_id chunks outcome t
            = ((run_execution_body parse m job_id chunks outcome t).1, .error e) by
          rw [← he]]
    obtain ⟨j', h1, h2, h3, h4⟩ := handle_error_final
      ((run_execution_body parse m job_id chunks outcome t).1) job_id jb qb e t
      hjb (herr e he) hqb
    rw [hdir] at h4
    exact ⟨j', by rw [hre]; exact h1, h2, h3, by rw [hre]; exact h4⟩
  refine ⟨hpart1, ?_, ?_⟩
  · obtain ⟨_, _, _, _, _, _, _, hraise⟩ :=
      run_execution_body_spec parse m job_id job q chunks (.raised msg) t hj hs hq
    exact hraise msg rfl
  · cases hbr : (run_execution_body parse m job_id chunks outcome t).2 with
    | error e =>
      obtain ⟨j', h1, _, _, h4⟩ := hpart1 e hbr
      exact ⟨j', h1, h4⟩
    | ok u =>
      cases u
      have hre : run_execution parse m job_id chunks outcome t
          = (((run_execution_body parse m job_id chunks outcome t).1).save_run_metadata
              job_id).1 := by
        simp only [run_execution]
        conv_lhs =>
          rw [show run_execution_body parse m job_id chunks outcome t
              = ((run_execution_body parse m job_id chunks outcome t).1, .ok ()) by
            rw [← hbr]]
        rw [handle_ok]
      obtain ⟨mf, hmf, hjobsf, hfsf⟩ := save_run_metadata_spec
        ((run_execution_body parse m job_id chunks outcome t).1) job_id jb hjb
      rw [hdir] at hfsf
      exact ⟨jb, by rw [hre, hmf]; exact hjobsf, by rw [hre, hmf]; exact hfsf⟩

/-- Witness for C4: a concrete EXECUTING job whose drain raises after one
streamed line ends FAILED, with the ERROR event last and `run.json`
serialized from the final record. -/
theorem c4_execute_failure_durability_witness :
    ∃ j', lookupA (run_execution parseNone (sampleManager .EXECUTING) "j1" ["hello"]
          (.raised "boom") 9).jobs "j1" = some j' ∧
      j'.state = .FAILED ∧
      j'.events.getLast? = some ⟨.ERROR, (PyExc.streamError "boom").message, 9⟩ ∧
      lookupA (run_execution parseNone (sampleManager .EXECUTING) "j1" ["hello"]
          (.raised "boom") 9).fs_files
          ((sampleJob .EXECUTING).artifacts_dir ++ "/" ++ "run.json") = some (dumpJob j') :=
  (c4_execute_failure_durability parseNone (sampleManager .EXECUTING) "j1"
      (sampleJob .EXECUTING) [] ["hello"] (.raised "boom") "boom" 9
      (by rfl) (by rfl) (by rfl)).1 (.streamError "boom") (by rfl)

end Runner
